import Mathlib

/-
Shallow embedding of the ZeroMQ work manager in
src/work_managers/zeromq.py.

Pickled Python values carried in messages are modelled by the
first-order type Val.  Python functions cross the wire as pickled
references, so the function slot of a task message is a Val, and the
behaviour of calling it is supplied by an environment of type
Val -> Val -> Val -> ExecOutcome (function reference, args, kwargs).
Socket sends, future resolutions and error log calls are recorded as
explicit event lists in the outcome structures, and each loop body is
embedded as a step function on its explicit state.
-/

/-- A pickled Python value carried inside a task or result message. -/
inductive Val where
  | nat (n : Nat)
  | str (s : String)
  | pair (a b : Val)
  deriving DecidableEq, Repr

/-- Outcome of invoking a task function: a normal return value, or a
raised exception value together with the formatted traceback text
produced by traceback.format_exc(). -/
inductive ExecOutcome where
  | ret (v : Val)
  | exn (e : Val) (trace : String)
  deriving DecidableEq, Repr

/-- A resolution performed on a pending WMFuture by the receive loop:
either ft._set_result(payload) or ft._set_exception(*payload). -/
inductive FutureEvent where
  | setResult (task_id payload : Val)
  | setException (task_id payload : Val)
  deriving DecidableEq, Repr

/-- Effect of ZMQWMServer._receive_loop handling one message from the
master result socket: the updated pending-futures registry (keyed by
task_id), the future resolutions performed, and the error log lines. -/
structure RecvOutcome where
  pending : List Val
  events : List FutureEvent
  logs : List String
  deriving DecidableEq, Repr

/-- The log line emitted at zeromq.py:267 when the instance_id of a
received result does not match this server; empty otherwise. -/
def ZMQWMServer.mismatchLog (instance_id self_id : Val) : List String :=
  if instance_id ≠ self_id then
    ["received result for instance mismatch; ignoring. Zombie client?"]
  else []

/-- zeromq.py:267-282: the body run on a well-formed four element
result tuple.  The instance_id check only logs (control falls through
to the pop).  pending_futures.pop(task_id) is attempted before
result_type is examined; KeyError is logged and ignored.  An unknown
result_type is logged after the pop. -/
def ZMQWMServer.handleWellFormed (self_id : Val) (pending : List Val)
    (instance_id task_id result_type payload : Val) : RecvOutcome :=
  if task_id ∈ pending then
    if result_type = Val.str "result" then
      { pending := pending.erase task_id,
        events := [FutureEvent.setResult task_id payload],
        logs := ZMQWMServer.mismatchLog instance_id self_id }
    else if result_type = Val.str "exception" then
      { pending := pending.erase task_id,
        events := [FutureEvent.setException task_id payload],
        logs := ZMQWMServer.mismatchLog instance_id self_id }
    else
      { pending := pending.erase task_id, events := [],
        logs := ZMQWMServer.mismatchLog instance_id self_id
            ++ ["received unknown result type; ignoring. Incompatible/zombie client?"] }
  else
    { pending := pending, events := [],
      logs := ZMQWMServer.mismatchLog instance_id self_id
          ++ ["received result for nonexistent task; zombie client?"] }

/-- zeromq.py:261-282: unpacking of one received result message.  A
message that does not unpack into exactly four elements raises
ValueError, which is caught and logged; the registry is untouched. -/
def ZMQWMServer.handleResultMessage (self_id : Val) (pending : List Val)
    (msg : List Val) : RecvOutcome :=
  match msg with
  | [instance_id, task_id, result_type, payload] =>
      ZMQWMServer.handleWellFormed self_id pending instance_id task_id result_type payload
  | _ => { pending := pending, events := [], logs := ["received malformed result; ignorning"] }

/-- What woke the announce loop poll at zeromq.py:310: control
messages arrived on the ctl socket, or the poll timed out. -/
inductive PollOutcome where
  | ctl (messages : List String)
  | timeout
  deriving DecidableEq, Repr

/-- Result of one iteration of ZMQWMServer._announce_loop: either the
loop returns (after broadcasting shutdown), or it continues with the
broadcasts sent this cycle, the updated last_announce clock and the
remaining_interval used for the next poll timeout. -/
inductive AnnOutcome where
  | exit (sent : List String)
  | next (sent : List String) (last_announce remaining_interval : Nat)
  deriving DecidableEq, Repr

/-- zeromq.py:309-328: one iteration of the announce loop.  H is
server_heartbeat_interval.  tPing is the time.time() value read at
line 321 (timeout branch only) and now the one read at line 324;
tPing ≤ now in any real execution.  On a control wake containing
shutdown the loop broadcasts shutdown and returns; on another control
wake it forwards every message verbatim; on timeout it broadcasts
ping and resets last_announce.  Afterwards remaining_interval is
recomputed exactly as in lines 324-328. -/
def ZMQWMServer.announceStep (H last_announce : Nat) (poll : PollOutcome)
    (tPing now : Nat) : AnnOutcome :=
  match poll with
  | PollOutcome.ctl messages =>
      if "shutdown" ∈ messages then AnnOutcome.exit ["shutdown"]
      else
        AnnOutcome.next messages last_announce
          (if now - last_announce < H then now - last_announce else H)
  | PollOutcome.timeout =>
      AnnOutcome.next ["ping"] tPing
        (if now - tPing < H then now - tPing else H)

/-- The three private in-process control channels of the server, one
per duty loop (zeromq.py:163-165). -/
inductive CtlEndpoint where
  | dispatch
  | receive
  | announce
  deriving DecidableEq, Repr

/-- The thread-shared state of a ZMQWMServer, together with the trace
of control messages sent through _signal_thread. -/
structure ServerState where
  instance_id : Val
  task_queue : List (List Val)
  pending_futures : List Val
  shutdown_signaled : Bool
  signals : List (CtlEndpoint × String)
  deriving DecidableEq, Repr

/-- zeromq.py:138-160: the state of a freshly constructed server. -/
def ZMQWMServer.initialState (iid : Val) : ServerState :=
  { instance_id := iid, task_queue := [], pending_futures := [],
    shutdown_signaled := false, signals := [] }

/-- A submission as passed to submit / submit_many, plus the fresh
task_id minted by the WMFuture created for it. -/
structure Submission where
  fn : Val
  args : Val
  kwargs : Val
  task_id : Val
  deriving DecidableEq, Repr

/-- zeromq.py:337-343 _make_append_task: create a future, register it
under its task_id, and append the task tuple
(instance_id, task_id, fn, args, kwargs) to the task queue. -/
def ZMQWMServer.makeAppendTask (st : ServerState) (sub : Submission) : ServerState :=
  { st with
    pending_futures := st.pending_futures ++ [sub.task_id],
    task_queue := st.task_queue
        ++ [[st.instance_id, sub.task_id, sub.fn, sub.args, sub.kwargs]] }

/-- zeromq.py:345-349 submit: append one task, then wake the dispatch
loop with an empty control message. -/
def ZMQWMServer.submit (st : ServerState) (sub : Submission) : ServerState :=
  let st1 := ZMQWMServer.makeAppendTask st sub
  { st1 with signals := st1.signals ++ [(CtlEndpoint.dispatch, "")] }

/-- zeromq.py:351-354 submit_many: append every task in order, then
send a single wake-up control message to the dispatch loop. -/
def ZMQWMServer.submitMany (st : ServerState) (subs : List Submission) : ServerState :=
  let st1 := subs.foldl ZMQWMServer.makeAppendTask st
  { st1 with signals := st1.signals ++ [(CtlEndpoint.dispatch, "")] }

/-- zeromq.py:356-362 shutdown: guarded by _shutdown_signaled; the
first call sets the flag and sends one shutdown control message to
each of the three loop control channels; later calls do nothing. -/
def ZMQWMServer.shutdown (st : ServerState) : ServerState :=
  if st.shutdown_signaled then st
  else
    { st with
      shutdown_signaled := true,
      signals := st.signals
          ++ [(CtlEndpoint.dispatch, "shutdown"),
              (CtlEndpoint.receive, "shutdown"),
              (CtlEndpoint.announce, "shutdown")] }

/-- zeromq.py:219-227: the inner drain of the dispatch loop.  Tasks
are popped from the left of the queue one at a time until IndexError,
and each popped tuple is sent once on the master task socket.
Returns the queue left behind and the accumulated sends in order. -/
def ZMQWMServer.dispatchDrain : List (List Val) → List (List Val) → List (List Val) × List (List Val)
  | [], sent => ([], sent)
  | t :: rest, sent => ZMQWMServer.dispatchDrain rest (sent ++ [t])

/-- The operations performed by ZMQWMServer.startup (zeromq.py:167-192)
in program order. -/
inductive StartupOp where
  | bind_startup_ctl
  | start_thread (loop : CtlEndpoint)
  | recv_ack
  | close_startup_ctl
  deriving DecidableEq, Repr

/-- zeromq.py:167-192: startup binds the rendezvous (startup ctl)
socket, starts the three loop threads, performs three blocking
receives on the rendezvous socket, and closes it before returning. -/
def ZMQWMServer.startupOps : List StartupOp :=
  [StartupOp.bind_startup_ctl,
   StartupOp.start_thread CtlEndpoint.dispatch,
   StartupOp.start_thread CtlEndpoint.receive,
   StartupOp.start_thread CtlEndpoint.announce,
   StartupOp.recv_ack, StartupOp.recv_ack, StartupOp.recv_ack,
   StartupOp.close_startup_ctl]

/-- The operations a duty loop performs before entering its main
receive loop. -/
inductive LoopOp where
  | bind_main_socket
  | bind_ctl_socket
  | signal_startup_ack
  | enter_main_loop
  deriving DecidableEq, Repr

/-- True for the bind and acknowledgment operations of a loop
prologue. -/
def LoopOp.bindOrAck : LoopOp → Bool
  | LoopOp.enter_main_loop => false
  | _ => true

/-- zeromq.py:195-213: the dispatch loop binds the master task socket,
binds its control socket, signals the startup rendezvous once, and
enters its poll loop. -/
def ZMQWMServer.dispatchLoopPrologue : List LoopOp :=
  [LoopOp.bind_main_socket, LoopOp.bind_ctl_socket,
   LoopOp.signal_startup_ack, LoopOp.enter_main_loop]

/-- zeromq.py:235-253: the receive loop binds the master result
socket, binds its control socket, signals the startup rendezvous
once, and enters its poll loop. -/
def ZMQWMServer.receiveLoopPrologue : List LoopOp :=
  [LoopOp.bind_main_socket, LoopOp.bind_ctl_socket,
   LoopOp.signal_startup_ack, LoopOp.enter_main_loop]

/-- zeromq.py:291-309: the announce loop binds the master announce
socket, binds its control socket, signals the startup rendezvous
once, and enters its poll loop. -/
def ZMQWMServer.announceLoopPrologue : List LoopOp :=
  [LoopOp.bind_main_socket, LoopOp.bind_ctl_socket,
   LoopOp.signal_startup_ack, LoopOp.enter_main_loop]

/-- Effect of one iteration of ZMQWMProcess.run on the worker: the
remembered server identity, the result messages pushed on the result
socket, the error log lines, whether the loop terminated (an uncaught
error propagating out of the while), and whether each socket was
closed (the finally clause at zeromq.py:420-422 runs when the loop
terminates). -/
structure WorkerOutcome where
  last_seen : Option Val
  sent : List (List Val)
  logs : List String
  terminated : Bool
  task_socket_closed : Bool
  result_socket_closed : Bool
  deriving DecidableEq, Repr

/-- zeromq.py:412-419: invoke fn(*args, **kwargs) and push exactly one
result tuple: (server_id, task_id, "result", value) on normal return,
or (server_id, task_id, "exception", (e, formatted_traceback)) when
the task function raises. -/
def ZMQWMProcess.execAndSend (env : Val → Val → Val → ExecOutcome)
    (server_id task_id fn args kwargs : Val) (newLast : Option Val) : WorkerOutcome :=
  match env fn args kwargs with
  | ExecOutcome.ret v =>
      { last_seen := newLast,
        sent := [[server_id, task_id, Val.str "result", v]],
        logs := [], terminated := false,
        task_socket_closed := false, result_socket_closed := false }
  | ExecOutcome.exn e tr =>
      { last_seen := newLast,
        sent := [[server_id, task_id, Val.str "exception", Val.pair e (Val.str tr)]],
        logs := [], terminated := false,
        task_socket_closed := false, result_socket_closed := false }

/-- zeromq.py:390-419: one iteration of the worker loop.  The first
five elements of the received tuple are unpacked as
(server_id, task_id, fn, args, kwargs); a shorter tuple raises
ValueError, which is caught and logged.  The first server_id seen is
remembered; a later task from a different server raises an uncaught
ValueError, terminating the loop (the finally clause closes both
sockets).  Otherwise the task is executed and exactly one result is
sent. -/
def ZMQWMProcess.workerStep (env : Val → Val → Val → ExecOutcome)
    (last_seen : Option Val) (task_tuple : List Val) : WorkerOutcome :=
  match task_tuple.take 5 with
  | [server_id, task_id, fn, args, kwargs] =>
      match last_seen with
      | none => ZMQWMProcess.execAndSend env server_id task_id fn args kwargs (some server_id)
      | some prev =>
          if prev ≠ server_id then
            { last_seen := some prev, sent := [], logs := [], terminated := true,
              task_socket_closed := true, result_socket_closed := true }
          else ZMQWMProcess.execAndSend env server_id task_id fn args kwargs (some prev)
  | _ =>
      { last_seen := last_seen, sent := [], logs := ["malformed task received; ignoring"],
        terminated := false, task_socket_closed := false, result_socket_closed := false }

/-- An environment in which every task function returns its args
value. -/
def envRet0 : Val → Val → Val → ExecOutcome :=
  fun _ args _ => ExecOutcome.ret args

/-- An environment in which every task function raises. -/
def envRaise0 : Val → Val → Val → ExecOutcome :=
  fun _ _ _ => ExecOutcome.exn (Val.str "ZeroDivisionError") "Traceback (most recent call last)"


/- ------------------------------------------------------------------ -/
/- Helper lemmas                                                      -/
/- ------------------------------------------------------------------ -/

theorem execAndSend_logs (env : Val → Val → Val → ExecOutcome)
    (s t f a k : Val) (nl : Option Val) :
    (ZMQWMProcess.execAndSend env s t f a k nl).logs = [] := by
  unfold ZMQWMProcess.execAndSend
  cases env f a k <;> rfl

theorem execAndSend_terminated (env : Val → Val → Val → ExecOutcome)
    (s t f a k : Val) (nl : Option Val) :
    (ZMQWMProcess.execAndSend env s t f a k nl).terminated = false := by
  unfold ZMQWMProcess.execAndSend
  cases env f a k <;> rfl

theorem workerStep_cons5_none (env : Val → Val → Val → ExecOutcome)
    (a b c d e : Val) (tl : List Val) :
    ZMQWMProcess.workerStep env none (a :: b :: c :: d :: e :: tl)
      = ZMQWMProcess.execAndSend env a b c d e (some a) := rfl

theorem workerStep_cons5_some (env : Val → Val → Val → ExecOutcome)
    (prev a b c d e : Val) (tl : List Val) :
    ZMQWMProcess.workerStep env (some prev) (a :: b :: c :: d :: e :: tl)
      = if prev ≠ a then
          { last_seen := some prev, sent := [], logs := [], terminated := true,
            task_socket_closed := true, result_socket_closed := true }
        else ZMQWMProcess.execAndSend env a b c d e (some prev) := rfl

theorem workerStep_take5 (env : Val → Val → Val → ExecOutcome)
    (last : Option Val) (msg : List Val) :
    ZMQWMProcess.workerStep env last msg
      = ZMQWMProcess.workerStep env last (msg.take 5) := by
  rcases msg with _ | ⟨a, _ | ⟨b, _ | ⟨c, _ | ⟨d, _ | ⟨e, tl⟩⟩⟩⟩⟩ <;> rfl

theorem dispatchDrain_eq (q acc : List (List Val)) :
    ZMQWMServer.dispatchDrain q acc = ([], acc ++ q) := by
  induction q generalizing acc with
  | nil => simp [ZMQWMServer.dispatchDrain]
  | cons t rest ih => simp [ZMQWMServer.dispatchDrain, ih]

theorem submitFold_spec (subs : List Submission) (st : ServerState) :
    (subs.foldl ZMQWMServer.makeAppendTask st).instance_id = st.instance_id ∧
    (subs.foldl ZMQWMServer.makeAppendTask st).task_queue
      = st.task_queue
        ++ subs.map (fun sub => [st.instance_id, sub.task_id, sub.fn, sub.args, sub.kwargs]) := by
  induction subs generalizing st with
  | nil => simp
  | cons sub rest ih =>
      obtain ⟨hi, hq⟩ := ih (ZMQWMServer.makeAppendTask st sub)
      refine ⟨by simpa [ZMQWMServer.makeAppendTask] using hi, ?_⟩
      rw [List.foldl_cons, hq]
      simp [ZMQWMServer.makeAppendTask]


/- ------------------------------------------------------------------ -/
/- Claim theorems                                                     -/
/- ------------------------------------------------------------------ -/

/-- C1: evaluation of the receive loop body at a result message whose
instance_id (1) differs from the server instance_id (0) but whose
task_id (7) is pending.  The claim says such a message is dropped and
never resolves any future; the code instead logs the mismatch, pops
the future for task 7 and fulfills it with the payload 5. -/
theorem receive_mismatch_resolves_future :
    ZMQWMServer.handleResultMessage (Val.nat 0) [Val.nat 7]
        [Val.nat 1, Val.nat 7, Val.str "result", Val.nat 5]
      = { pending := [],
          events := [FutureEvent.setResult (Val.nat 7) (Val.nat 5)],
          logs := ["received result for instance mismatch; ignoring. Zombie client?"] } := by
  decide

/-- C2: evaluation of the announce loop iteration with heartbeat
period H = 10, last heartbeat at time 100, woken early by a
non-shutdown control message at time 103, so elapsed e = 3.  The
claim says the next poll timeout is H - e = 7; the code assigns the
elapsed time itself, 3, to remaining_interval. -/
theorem announce_interval_elapsed_not_remaining :
    ZMQWMServer.announceStep 10 100 (PollOutcome.ctl ["wake"]) 103 103
      = AnnOutcome.next ["wake"] 100 3
    ∧ (10 - (103 - 100) : Nat) = 7 ∧ (3 : Nat) ≠ 7 := by
  decide

/-- C3: a worker that has processed a first well-formed task from
server A terminates on a second well-formed task from a different
server B: the uncaught ValueError ends the loop, both sockets are
closed by the finally clause, no result message is sent for the
second task, and the outcome is independent of the task-function
environment (the task function is never invoked). -/
theorem worker_zombie_detection_terminates
    (env env2 : Val → Val → Val → ExecOutcome)
    (A B tid1 fn1 args1 kwargs1 tid2 fn2 args2 kwargs2 : Val)
    (rest1 rest2 : List Val) (hAB : A ≠ B) :
    (ZMQWMProcess.workerStep env none
        (A :: tid1 :: fn1 :: args1 :: kwargs1 :: rest1)).last_seen = some A ∧
    ZMQWMProcess.workerStep env (some A)
        (B :: tid2 :: fn2 :: args2 :: kwargs2 :: rest2)
      = { last_seen := some A, sent := [], logs := [], terminated := true,
          task_socket_closed := true, result_socket_closed := true } ∧
    ZMQWMProcess.workerStep env2 (some A)
        (B :: tid2 :: fn2 :: args2 :: kwargs2 :: rest2)
      = ZMQWMProcess.workerStep env (some A)
          (B :: tid2 :: fn2 :: args2 :: kwargs2 :: rest2) := by
  refine ⟨?_, ?_, ?_⟩
  · rw [workerStep_cons5_none]
    unfold ZMQWMProcess.execAndSend
    cases env fn1 args1 kwargs1 <;> rfl
  · rw [workerStep_cons5_some, if_pos hAB]
  · rw [workerStep_cons5_some, if_pos hAB, workerStep_cons5_some, if_pos hAB]

/-- C3 witness. -/
theorem worker_zombie_detection_terminates_witness :
    (ZMQWMProcess.workerStep envRet0 none
        [Val.nat 0, Val.nat 10, Val.nat 2, Val.nat 3, Val.nat 4]).last_seen = some (Val.nat 0) ∧
    ZMQWMProcess.workerStep envRet0 (some (Val.nat 0))
        [Val.nat 1, Val.nat 11, Val.nat 2, Val.nat 3, Val.nat 4]
      = { last_seen := some (Val.nat 0), sent := [], logs := [], terminated := true,
          task_socket_closed := true, result_socket_closed := true } ∧
    ZMQWMProcess.workerStep envRaise0 (some (Val.nat 0))
        [Val.nat 1, Val.nat 11, Val.nat 2, Val.nat 3, Val.nat 4]
      = ZMQWMProcess.workerStep envRet0 (some (Val.nat 0))
          [Val.nat 1, Val.nat 11, Val.nat 2, Val.nat 3, Val.nat 4] :=
  worker_zombie_detection_terminates envRet0 envRaise0
    (Val.nat 0) (Val.nat 1) (Val.nat 10) (Val.nat 2) (Val.nat 3) (Val.nat 4)
    (Val.nat 11) (Val.nat 2) (Val.nat 3) (Val.nat 4) [] [] (by decide)

/-- C4: a well-formed task whose server_id matches the remembered
instance_id produces exactly one result message in one iteration:
(server_id, task_id, "result", v) when the task function returns v,
and (server_id, task_id, "exception", (e, traceback_text)) when it
raises; in both cases the loop does not terminate. -/
theorem worker_exactly_one_result
    (env : Val → Val → Val → ExecOutcome)
    (A tid fn args kwargs v e : Val) (tr : String) (rest : List Val) :
    (env fn args kwargs = ExecOutcome.ret v →
      ZMQWMProcess.workerStep env (some A) (A :: tid :: fn :: args :: kwargs :: rest)
        = { last_seen := some A, sent := [[A, tid, Val.str "result", v]],
            logs := [], terminated := false,
            task_socket_closed := false, result_socket_closed := false }) ∧
    (env fn args kwargs = ExecOutcome.exn e tr →
      ZMQWMProcess.workerStep env (some A) (A :: tid :: fn :: args :: kwargs :: rest)
        = { last_seen := some A,
            sent := [[A, tid, Val.str "exception", Val.pair e (Val.str tr)]],
            logs := [], terminated := false,
            task_socket_closed := false, result_socket_closed := false }) := by
  constructor
  · intro h
    rw [workerStep_cons5_some, if_neg (by simp)]
    unfold ZMQWMProcess.execAndSend
    rw [h]
  · intro h
    rw [workerStep_cons5_some, if_neg (by simp)]
    unfold ZMQWMProcess.execAndSend
    rw [h]

/-- C4 witness. -/
theorem worker_exactly_one_result_witness :
    ZMQWMProcess.workerStep envRet0 (some (Val.nat 0))
        [Val.nat 0, Val.nat 1, Val.nat 2, Val.nat 3, Val.nat 4]
      = { last_seen := some (Val.nat 0),
          sent := [[Val.nat 0, Val.nat 1, Val.str "result", Val.nat 3]],
          logs := [], terminated := false,
          task_socket_closed := false, result_socket_closed := false } ∧
    ZMQWMProcess.workerStep envRaise0 (some (Val.nat 0))
        [Val.nat 0, Val.nat 1, Val.nat 2, Val.nat 3, Val.nat 4]
      = { last_seen := some (Val.nat 0),
          sent := [[Val.nat 0, Val.nat 1, Val.str "exception",
                    Val.pair (Val.str "ZeroDivisionError")
                      (Val.str "Traceback (most recent call last)")]],
          logs := [], terminated := false,
          task_socket_closed := false, result_socket_closed := false } :=
  ⟨(worker_exactly_one_result envRet0 (Val.nat 0) (Val.nat 1) (Val.nat 2) (Val.nat 3)
      (Val.nat 4) (Val.nat 3) (Val.nat 0) "" []).1 rfl,
   (worker_exactly_one_result envRaise0 (Val.nat 0) (Val.nat 1) (Val.nat 2) (Val.nat 3)
      (Val.nat 4) (Val.nat 0) (Val.str "ZeroDivisionError")
      "Traceback (most recent call last)" []).2 rfl⟩

/-- C5: shutdown is idempotent.  From a state where the guard flag is
unset, the first call appends exactly one shutdown control message
for each of the three loop control channels and sets the flag; a
second call is the identity, and the rest of the server state is
untouched by the first call as well. -/
theorem shutdown_idempotent (st : ServerState) (h : st.shutdown_signaled = false) :
    (ZMQWMServer.shutdown st).signals
      = st.signals
        ++ [(CtlEndpoint.dispatch, "shutdown"),
            (CtlEndpoint.receive, "shutdown"),
            (CtlEndpoint.announce, "shutdown")] ∧
    (ZMQWMServer.shutdown st).shutdown_signaled = true ∧
    ZMQWMServer.shutdown (ZMQWMServer.shutdown st) = ZMQWMServer.shutdown st ∧
    (ZMQWMServer.shutdown st).task_queue = st.task_queue ∧
    (ZMQWMServer.shutdown st).pending_futures = st.pending_futures ∧
    (ZMQWMServer.shutdown st).instance_id = st.instance_id := by
  simp [ZMQWMServer.shutdown, h]

/-- C5 witness. -/
theorem shutdown_idempotent_witness :
    (ZMQWMServer.shutdown (ZMQWMServer.initialState (Val.nat 0))).signals
      = (ZMQWMServer.initialState (Val.nat 0)).signals
        ++ [(CtlEndpoint.dispatch, "shutdown"),
            (CtlEndpoint.receive, "shutdown"),
            (CtlEndpoint.announce, "shutdown")] ∧
    (ZMQWMServer.shutdown (ZMQWMServer.initialState (Val.nat 0))).shutdown_signaled = true ∧
    ZMQWMServer.shutdown (ZMQWMServer.shutdown (ZMQWMServer.initialState (Val.nat 0)))
      = ZMQWMServer.shutdown (ZMQWMServer.initialState (Val.nat 0)) ∧
    (ZMQWMServer.shutdown (ZMQWMServer.initialState (Val.nat 0))).task_queue
      = (ZMQWMServer.initialState (Val.nat 0)).task_queue ∧
    (ZMQWMServer.shutdown (ZMQWMServer.initialState (Val.nat 0))).pending_futures
      = (ZMQWMServer.initialState (Val.nat 0)).pending_futures ∧
    (ZMQWMServer.shutdown (ZMQWMServer.initialState (Val.nat 0))).instance_id
      = (ZMQWMServer.initialState (Val.nat 0)).instance_id :=
  shutdown_idempotent (ZMQWMServer.initialState (Val.nat 0)) rfl

/-- C6: the startup trace performs exactly three receives on the
rendezvous socket, closes the rendezvous socket exactly once and as
its last action (hence after all three receives), and every duty loop
prologue sends exactly one startup acknowledgment, after all of its
binds and before entering its main loop. -/
theorem startup_three_acks_then_close :
    ZMQWMServer.startupOps.count StartupOp.recv_ack = 3 ∧
    ZMQWMServer.startupOps.getLast? = some StartupOp.close_startup_ctl ∧
    ZMQWMServer.startupOps.count StartupOp.close_startup_ctl = 1 ∧
    ZMQWMServer.startupOps.filter
        (fun op => decide (op = StartupOp.recv_ack)
          || decide (op = StartupOp.close_startup_ctl))
      = [StartupOp.recv_ack, StartupOp.recv_ack, StartupOp.recv_ack,
         StartupOp.close_startup_ctl] ∧
    ZMQWMServer.dispatchLoopPrologue.count LoopOp.signal_startup_ack = 1 ∧
    ZMQWMServer.receiveLoopPrologue.count LoopOp.signal_startup_ack = 1 ∧
    ZMQWMServer.announceLoopPrologue.count LoopOp.signal_startup_ack = 1 ∧
    (ZMQWMServer.dispatchLoopPrologue.filter LoopOp.bindOrAck).getLast?
      = some LoopOp.signal_startup_ack ∧
    (ZMQWMServer.receiveLoopPrologue.filter LoopOp.bindOrAck).getLast?
      = some LoopOp.signal_startup_ack ∧
    (ZMQWMServer.announceLoopPrologue.filter LoopOp.bindOrAck).getLast?
      = some LoopOp.signal_startup_ack ∧
    ZMQWMServer.dispatchLoopPrologue.getLast? = some LoopOp.enter_main_loop ∧
    ZMQWMServer.receiveLoopPrologue.getLast? = some LoopOp.enter_main_loop ∧
    ZMQWMServer.announceLoopPrologue.getLast? = some LoopOp.enter_main_loop := by
  decide

/-- C7: tasks submitted through submit_many are appended to the task
queue in submission order, each as the tuple
(instance_id, task_id, fn, args, kwargs); and a dispatch drain pass
empties the queue and sends exactly the queued tuples, in queue
order, one send per task. -/
theorem dispatch_fifo_order (st : ServerState) (subs : List Submission) :
    (ZMQWMServer.submitMany st subs).task_queue
      = st.task_queue
        ++ subs.map (fun sub => [st.instance_id, sub.task_id, sub.fn, sub.args, sub.kwargs]) ∧
    ∀ q : List (List Val), ZMQWMServer.dispatchDrain q [] = ([], q) := by
  constructor
  · have h := (submitFold_spec subs st).2
    simpa [ZMQWMServer.submitMany] using h
  · intro q
    simpa using dispatchDrain_eq q []

/-- C8: malformed messages are logged, dropped and non-fatal in both
loops.  A result message that does not unpack into exactly four
elements leaves the pending-futures registry unchanged and resolves
nothing; a task message with fewer than five elements leaves the
remembered server identity unchanged, sends nothing, and does not
terminate the worker loop. -/
theorem malformed_message_nonfatal :
    (∀ (self_id : Val) (pending : List Val) (msg : List Val), msg.length ≠ 4 →
      ZMQWMServer.handleResultMessage self_id pending msg
        = { pending := pending, events := [],
            logs := ["received malformed result; ignorning"] }) ∧
    (∀ (env : Val → Val → Val → ExecOutcome) (last : Option Val) (msg : List Val),
      msg.length < 5 →
      ZMQWMProcess.workerStep env last msg
        = { last_seen := last, sent := [], logs := ["malformed task received; ignoring"],
            terminated := false, task_socket_closed := false,
            result_socket_closed := false }) := by
  constructor
  · intro self_id pending msg h
    rcases msg with _ | ⟨a, _ | ⟨b, _ | ⟨c, _ | ⟨d, _ | ⟨e, tl⟩⟩⟩⟩⟩
    · rfl
    · rfl
    · rfl
    · rfl
    · simp at h
    · rfl
  · intro env last msg h
    rcases msg with _ | ⟨a, _ | ⟨b, _ | ⟨c, _ | ⟨d, _ | ⟨e, tl⟩⟩⟩⟩⟩
    · rfl
    · rfl
    · rfl
    · rfl
    · rfl
    · simp only [List.length_cons] at h
      omega

/-- C8 witness. -/
theorem malformed_message_nonfatal_witness :
    ZMQWMServer.handleResultMessage (Val.nat 0) [Val.nat 7] [Val.nat 1]
      = { pending := [Val.nat 7], events := [],
          logs := ["received malformed result; ignorning"] } ∧
    ZMQWMProcess.workerStep envRet0 (some (Val.nat 0)) [Val.nat 1]
      = { last_seen := some (Val.nat 0), sent := [],
          logs := ["malformed task received; ignoring"],
          terminated := false, task_socket_closed := false,
          result_socket_closed := false } :=
  ⟨malformed_message_nonfatal.1 (Val.nat 0) [Val.nat 7] [Val.nat 1] (by decide),
   malformed_message_nonfatal.2 envRet0 (some (Val.nat 0)) [Val.nat 1] (by decide)⟩

/-- C9: a well-formed result message whose task_id is pending but
whose result_type is neither "result" nor "exception" still removes
the future from the registry (the pop precedes the result_type
dispatch) while resolving nothing, so under unique registry keys the
task_id is gone from the registry afterwards. -/
theorem unknown_result_type_discards_future
    (self_id iid tid rt payload : Val) (pending : List Val)
    (hmem : tid ∈ pending) (h1 : rt ≠ Val.str "result") (h2 : rt ≠ Val.str "exception") :
    (ZMQWMServer.handleResultMessage self_id pending [iid, tid, rt, payload]).pending
      = pending.erase tid ∧
    (ZMQWMServer.handleResultMessage self_id pending [iid, tid, rt, payload]).events = [] ∧
    (pending.Nodup →
      tid ∉ (ZMQWMServer.handleResultMessage self_id pending [iid, tid, rt, payload]).pending) := by
  have hred : ZMQWMServer.handleResultMessage self_id pending [iid, tid, rt, payload]
      = { pending := pending.erase tid, events := [],
          logs := ZMQWMServer.mismatchLog iid self_id
              ++ ["received unknown result type; ignoring. Incompatible/zombie client?"] } := by
    show ZMQWMServer.handleWellFormed self_id pending iid tid rt payload = _
    unfold ZMQWMServer.handleWellFormed
    rw [if_pos hmem, if_neg h1, if_neg h2]
  refine ⟨by rw [hred], by rw [hred], ?_⟩
  intro hnd
  rw [hred]
  intro hin
  exact ((hnd.mem_erase_iff).1 hin).1 rfl

/-- C9 witness. -/
theorem unknown_result_type_discards_future_witness :
    (ZMQWMServer.handleResultMessage (Val.nat 0) [Val.nat 7]
        [Val.nat 0, Val.nat 7, Val.str "weird", Val.nat 1]).pending
      = ([Val.nat 7] : List Val).erase (Val.nat 7) ∧
    (ZMQWMServer.handleResultMessage (Val.nat 0) [Val.nat 7]
        [Val.nat 0, Val.nat 7, Val.str "weird", Val.nat 1]).events = [] ∧
    (([Val.nat 7] : List Val).Nodup →
      Val.nat 7 ∉ (ZMQWMServer.handleResultMessage (Val.nat 0) [Val.nat 7]
          [Val.nat 0, Val.nat 7, Val.str "weird", Val.nat 1]).pending) :=
  unknown_result_type_discards_future (Val.nat 0) (Val.nat 0) (Val.nat 7)
    (Val.str "weird") (Val.nat 1) [Val.nat 7] (by decide) (by decide) (by decide)

/-- C10: the worker treats any received task tuple exactly as its
first five elements, so a longer tuple is processed with the extras
silently ignored; and the malformed-task log line is emitted exactly
when the tuple has fewer than five elements. -/
theorem worker_extra_elements_ignored
    (env : Val → Val → Val → ExecOutcome) (last : Option Val) (msg : List Val) :
    ZMQWMProcess.workerStep env last msg
      = ZMQWMProcess.workerStep env last (msg.take 5) ∧
    ((ZMQWMProcess.workerStep env last msg).logs
        = ["malformed task received; ignoring"] ↔ msg.length < 5) := by
  refine ⟨workerStep_take5 env last msg, ?_⟩
  rcases msg with _ | ⟨a, _ | ⟨b, _ | ⟨c, _ | ⟨d, _ | ⟨e, tl⟩⟩⟩⟩⟩
  · simp [ZMQWMProcess.workerStep]
  · simp [ZMQWMProcess.workerStep]
  · simp [ZMQWMProcess.workerStep]
  · simp [ZMQWMProcess.workerStep]
  · simp [ZMQWMProcess.workerStep]
  · constructor
    · intro hlog
      exfalso
      cases last with
      | none =>
          rw [workerStep_cons5_none] at hlog
          rw [execAndSend_logs] at hlog
          exact List.noConfusion hlog
      | some prev =>
          rw [workerStep_cons5_some] at hlog
          by_cases hp : prev ≠ a
          · rw [if_pos hp] at hlog
            exact List.noConfusion hlog
          · rw [if_neg hp, execAndSend_logs] at hlog
            exact List.noConfusion hlog
    · intro hlen
      simp at hlen
      omega
